import Mathlib

/-!
Shallow embedding of the rate-limiter API gateway (src/config.py, src/proxy.py,
src/main.py) and proofs about its rate-limit check, forwarding path, metrics,
and health endpoint.

Modelling conventions:
* Python strings are `String`; Python `dict` (insertion-ordered, unique keys)
  is an association list `List (String × String)` with `dictSet` mirroring
  `d[k] = v` (in-place overwrite of an existing key, else append) and
  `dictPop` mirroring `d.pop(k, None)`.
* Python's substring test `needle in hay` is `pyIn`.
* Exceptions are explicit values: `PyExc` covers the `Exception`-derived
  values the probed libraries raise; `except` clauses become ordered
  predicate/handler chains (`runChain`).
* Request bodies are byte lists; machine integers do not arise.
-/

/-- Byte-wise lowercase of a string, mirroring Python's `str.lower()` on the
ASCII header names that occur here. -/
def lowerStr (s : String) : String := ⟨s.data.map Char.toLower⟩

/-- All non-empty tails of a character list, longest first, then `[]`. -/
def strTails : List Char → List (List Char)
  | [] => [[]]
  | c :: cs => (c :: cs) :: strTails cs

/-- `strPrefixOf n h` is true when `n` is a prefix of `h`. -/
def strPrefixOf : List Char → List Char → Bool
  | [], _ => true
  | _ :: _, [] => false
  | a :: as, b :: bs => (a == b) && strPrefixOf as bs

/-- Python's `needle in hay` substring test. -/
def pyIn (needle hay : String) : Bool :=
  (strTails hay.data).any (fun t => strPrefixOf needle.data t)

/-- Python `dict` lookup `d.get(k)` on an association list. -/
def dictGet (d : List (String × String)) (k : String) : Option String :=
  (d.find? (fun p => p.1 = k)).map (fun p => p.2)

/-- Python `d.pop(k, None)`: remove the entry with key `k`. -/
def dictPop (d : List (String × String)) (k : String) : List (String × String) :=
  d.filter (fun p => p.1 ≠ k)

/-- Whether key `k` is present in the dict. -/
def hasKey (d : List (String × String)) (k : String) : Bool :=
  d.any (fun p => p.1 = k)

/-- Python `d[k] = v`: overwrite in place when the key exists (preserving
insertion order), otherwise append at the end. -/
def dictSet (d : List (String × String)) (k v : String) : List (String × String) :=
  if hasKey d k then d.map (fun p => if p.1 = k then (k, v) else p) else d ++ [(k, v)]

/-! ## config.py -/

/-- `MAX_CONCURRENT_REQUESTS = 5` (src/config.py). -/
def MAX_CONCURRENT_REQUESTS : Nat := 5

/-- `RATE_LIMITS = {"GET": 5, "POST": 5, "PUT": 5, "DELETE": 5}`
(src/config.py). -/
def RATE_LIMITS : List (String × Nat) :=
  [("GET", 5), ("POST", 5), ("PUT", 5), ("DELETE", 5)]

/-- `TIME_WINDOW = 60` seconds (src/config.py). -/
def TIME_WINDOW : Nat := 60

/-- The per-call timeout of the shared outbound client:
`httpx.AsyncClient(base_url=PRIMARY_BACKEND, follow_redirects=False, timeout=5.0)`
(src/proxy.py). -/
def clientTimeoutSeconds : Nat := 5

/-- `semaphore = asyncio.Semaphore(MAX_CONCURRENT_REQUESTS)` (src/proxy.py):
the fixed total number of permits. -/
def semaphoreCapacity : Nat := MAX_CONCURRENT_REQUESTS

/-! ## Exceptions

`PyExc` enumerates the `Exception`-derived values raised by the libraries the
gateway calls, tagged by the class facts the `except` clauses test.  In httpx
the class hierarchy is `TimeoutException <: TransportError <: RequestError`,
and `HTTPStatusError` is a sibling of `RequestError` (both direct subclasses
of `HTTPError`); `isRequestError` reflects exactly that hierarchy. -/

inductive PyExc where
  /-- An `httpx.TimeoutException` (e.g. `ReadTimeout`); also an
  `httpx.RequestError` by inheritance. -/
  | httpxTimeout (msg : String)
  /-- An `httpx.RequestError` that is not a timeout (e.g. `ConnectError`). -/
  | httpxRequestErrorOther (msg : String)
  /-- An `httpx.HTTPStatusError`, raised by `raise_for_status()` on a 4xx/5xx
  response; not an `httpx.RequestError`. -/
  | httpxHTTPStatusError (code : Nat) (msg : String)
  /-- Any other `Exception`-derived value. -/
  | otherException (msg : String)
deriving DecidableEq

/-- `isinstance(e, httpx.RequestError)`: true for timeouts too, since
`TimeoutException` subclasses `TransportError` which subclasses
`RequestError`. -/
def isRequestError : PyExc → Bool
  | .httpxTimeout _ => true
  | .httpxRequestErrorOther _ => true
  | _ => false

/-- `isinstance(e, httpx.TimeoutException)`. -/
def isTimeoutException : PyExc → Bool
  | .httpxTimeout _ => true
  | _ => false

/-- `isinstance(e, httpx.HTTPStatusError)`. -/
def isHTTPStatusError : PyExc → Bool
  | .httpxHTTPStatusError _ _ => true
  | _ => false

/-- The `str(e)` text interpolated into status strings by the health check. -/
def excMsg : PyExc → String
  | .httpxTimeout m => m
  | .httpxRequestErrorOther m => m
  | .httpxHTTPStatusError _ m => m
  | .otherException m => m

/-- `e.response.status_code` of an `HTTPStatusError` (0 otherwise, unused). -/
def excStatusCode : PyExc → Nat
  | .httpxHTTPStatusError c _ => c
  | _ => 0

/-! ## Request / response model (src/proxy.py) -/

/-- `request.client`: the originating address; `host` is the remote IP. -/
structure Client where
  host : String
deriving DecidableEq

/-- The pieces of a Starlette `Request` that `forward_proxy` and
`catch_all_proxy` read.  `headers` models `dict(request.headers)`; Starlette
normalises inbound header names to lowercase.  `client` is `None` when the
ASGI scope carries no client address. -/
structure Req where
  method : String
  path : String
  query : String
  scheme : String
  headers : List (String × String)
  body : List Nat
  client : Option Client
deriving DecidableEq

/-- The arguments handed to `client.request(method=..., url=..., headers=...,
content=...)`. -/
structure OutboundReq where
  method : String
  url : String
  headers : List (String × String)
  content : List Nat
deriving DecidableEq

/-- The backend's reply as seen through httpx. -/
structure BackendResponse where
  status_code : Nat
  headers : List (String × String)
  content : List Nat
deriving DecidableEq

/-- `backend_response.headers.get(k, default)`: httpx header lookup is
case-insensitive. -/
def httpxHeaderGet (hs : List (String × String)) (k : String) : Option String :=
  (hs.find? (fun p => lowerStr p.1 = lowerStr k)).map (fun p => p.2)

/-- The `Response(...)` the gateway constructs from a backend reply. -/
structure GatewayResponse where
  content : List Nat
  status_code : Nat
  headers : List (String × String)
  media_type : String
deriving DecidableEq

/-- `request.client.host if request.client else "unknown"` (src/proxy.py,
the value written into `X-Forwarded-For`). -/
def clientIdentity : Option Client → String
  | some c => c.host
  | none => "unknown"

/-- The outbound request `forward_proxy` builds before calling the backend:
pop the (lowercase) `host` header, reattach the query string to the path, set
`X-Forwarded-For` and `X-Forwarded-Proto`, and pass method and body through.
(`request.url` is always truthy in Starlette, so the
`request.url.scheme if request.url else "http"` expression is the scheme.) -/
def buildOutbound (req : Req) : OutboundReq :=
  let headers0 := dictPop req.headers "host"
  let url_path := req.path ++ (if req.query = "" then "" else "?" ++ req.query)
  let headers1 := dictSet headers0 "X-Forwarded-For" (clientIdentity req.client)
  let headers2 := dictSet headers1 "X-Forwarded-Proto" req.scheme
  { method := req.method, url := url_path, headers := headers2, content := req.body }

/-- `Response(content=..., status_code=..., headers=...,
media_type=backend_response.headers.get("Content-Type", "application/json"))`. -/
def buildResponse (br : BackendResponse) : GatewayResponse :=
  { content := br.content
    status_code := br.status_code
    headers := br.headers
    media_type := (httpxHeaderGet br.headers "Content-Type").getD "application/json" }

/-- Outcome of the single `await client.request(...)` call: a response, or a
raised exception. -/
inductive BackendResult where
  | ok (resp : BackendResponse)
  | raised (e : PyExc)
deriving DecidableEq

/-- Semaphore events on the forwarding path, in program order. -/
inductive SemEvent where
  | acquire
  | backendCall
  | release
deriving DecidableEq, BEq

/-- What `forward_proxy` produces: a translated backend response, or a raised
`HTTPException(status_code, detail)`. -/
inductive ForwardOutcome where
  | response (r : GatewayResponse)
  | httpException (status_code : Nat) (detail : String)
deriving DecidableEq

/-- `forward_proxy` (src/proxy.py).  The whole body runs inside
`async with semaphore:`, whose scoped semantics release the slot on every
exit, normal or exceptional; the event trace records acquire / backend call /
release in order.  The `except` clauses are tried in source order:
`httpx.RequestError` (503) first, then `httpx.TimeoutException` (504), then
`Exception` (500) — so a timeout, being a `RequestError` by inheritance, is
taken by the first clause. -/
def forward_proxy (backend : OutboundReq → BackendResult) (req : Req) :
    List SemEvent × ForwardOutcome :=
  let out := buildOutbound req
  match backend out with
  | .ok br =>
      ([.acquire, .backendCall, .release], .response (buildResponse br))
  | .raised e =>
      if isRequestError e then
        ([.acquire, .backendCall, .release],
          .httpException 503 "Backend service unavailable")
      else if isTimeoutException e then
        ([.acquire, .backendCall, .release],
          .httpException 504 "Gateway timeout")
      else
        ([.acquire, .backendCall, .release],
          .httpException 500 "Internal Gateway error")

/-! ## main.py -/

/-- The process-wide counters `total_requests_processed` /
`total_requests_blocked`. -/
structure Metrics where
  total_requests_processed : Nat
  total_requests_blocked : Nat
deriving DecidableEq

/-- `is_rate_limited` (src/main.py): increments `total_requests_processed`
and returns `False` unconditionally — its body logs that the rate-limiting
logic is pending full implementation in Phase 2.  `total_requests_blocked`
is never written anywhere in the program. -/
def is_rate_limited (_client_ip : String) (m : Metrics) : Metrics × Bool :=
  ({ m with total_requests_processed := m.total_requests_processed + 1 }, false)

/-- The method list of the catch-all route decorator
`@app.api_route("/{path:path}", methods=[...])` (src/main.py). -/
def routeMethods : List String :=
  ["GET", "POST", "PUT", "DELETE", "PATCH", "HEAD", "OPTIONS"]

/-- Python runtime errors the gateway endpoint can itself raise. -/
inductive PyRuntimeError where
  /-- `AttributeError`, from `request.client.host` when `request.client` is
  `None`. -/
  | attributeError
  /-- `KeyError`, from `RATE_LIMITS[request.method]` on a missing key. -/
  | keyError (key : String)
deriving DecidableEq

/-- The f-string detail of the 429 `HTTPException` in `catch_all_proxy`:
`RATE_LIMITS[request.method]` is an unguarded subscript, so a method absent
from `RATE_LIMITS` raises `KeyError` while the detail is being formatted. -/
def rejectDetail (method : String) : Except PyRuntimeError String :=
  match RATE_LIMITS.lookup method with
  | some l =>
      .ok ("Too Many Requests. Limit: " ++ toString l ++ " per "
        ++ toString TIME_WINDOW ++ "s. Please retry after "
        ++ toString TIME_WINDOW ++ " seconds.")
  | none => .error (.keyError method)

/-- Result of one request through the catch-all endpoint. -/
inductive GatewayResult where
  /-- The request was admitted and handed to `forward_proxy`. -/
  | forwarded (events : List SemEvent) (outcome : ForwardOutcome)
  /-- A raised `HTTPException` (the 429 path). -/
  | httpException (status_code : Nat) (detail : String)
  /-- An uncaught Python runtime error escaping the handler. -/
  | pyError (e : PyRuntimeError)
deriving DecidableEq

/-- `catch_all_proxy` (src/main.py): reads `client_ip = request.client.host`
with no `None` guard (unlike `forward_proxy`), runs the rate check, raises
the 429 `HTTPException` on a positive check (formatting the detail first),
otherwise forwards. -/
def catch_all_proxy (backend : OutboundReq → BackendResult) (req : Req)
    (m : Metrics) : Metrics × GatewayResult :=
  match req.client with
  | none => (m, .pyError .attributeError)
  | some c =>
      let checked := is_rate_limited c.host m
      if checked.2 then
        match rejectDetail req.method with
        | .ok d => (checked.1, .httpException 429 d)
        | .error e => (checked.1, .pyError e)
      else
        let fwd := forward_proxy backend req
        (checked.1, .forwarded fwd.1 fwd.2)

/-- Run a sequence of requests through the catch-all endpoint, threading the
process-wide metrics. -/
def runRequests (backend : OutboundReq → BackendResult) (reqs : List Req)
    (m : Metrics) : Metrics × List GatewayResult :=
  match reqs with
  | [] => (m, [])
  | r :: rest =>
      let step := catch_all_proxy backend r m
      let tail := runRequests backend rest step.1
      (tail.1, step.2 :: tail.2)

/-- Whether a gateway result is an admitted, forwarded request. -/
def isForwarded : GatewayResult → Bool
  | .forwarded _ _ => true
  | _ => false

/-- Whether a gateway result is a 429 rejection. -/
def is429 : GatewayResult → Bool
  | .httpException s _ => s == 429
  | _ => false

/-! ## Health endpoint (src/main.py) -/

/-- An ordered `except` chain: each clause is an `isinstance` test paired
with the status string its handler produces.  `runChain` returns `none` when
no clause matches, i.e. the exception propagates out of the handler. -/
def runChain (clauses : List ((PyExc → Bool) × (PyExc → String))) (e : PyExc) :
    Option String :=
  match clauses with
  | [] => none
  | (p, h) :: rest => if p e then some (h e) else runChain rest e

/-- The single `except Exception` clause around `redis_client.ping()`. -/
def redisExceptChain : List ((PyExc → Bool) × (PyExc → String)) :=
  [(fun _ => true, fun e => "Disconnected: " ++ excMsg e)]

/-- The three `except` clauses around the backend probe, in source order:
`httpx.RequestError`, then `httpx.HTTPStatusError`, then `Exception`. -/
def backendExceptChain : List ((PyExc → Bool) × (PyExc → String)) :=
  [(isRequestError, fun e => "Disconnected (connection error): " ++ excMsg e),
   (isHTTPStatusError,
     fun e => "Connected (backend error status: "
       ++ toString (excStatusCode e) ++ ")"),
   (fun _ => true, fun e => "Error: " ++ excMsg e)]

/-- The `redis_status` string: `ping` is attempted only when `redis_client`
is initialised (`none` models `redis_client is None`). -/
def redisStatusOf (ping : Option (Except PyExc Unit)) : Option String :=
  match ping with
  | some (.ok _) => some "Connected"
  | none => some "Not Initialized"
  | some (.error e) => runChain redisExceptChain e

/-- The `backend_status` string from the probe
`client.get(f"PRIMARY_BACKEND/health", timeout=2.0)` followed by
`raise_for_status()` (whose `HTTPStatusError`, when raised, is the `.error`
payload). -/
def backendStatusOf (probe : Except PyExc Unit) : Option String :=
  match probe with
  | .ok _ => some "Connected"
  | .error e => runChain backendExceptChain e

/-- The overall-status computation of `health_check`, verbatim: substring
tests on the two rendered status strings. -/
def overallStatus (redis_status backend_status : String) : String :=
  if pyIn "Disconnected" redis_status || pyIn "Disconnected" backend_status
      || pyIn "Error" backend_status then
    if pyIn "Connected" redis_status || pyIn "Connected" backend_status then
      "DEGRADED"
    else
      "UNHEALTHY"
  else
    "OK"

/-- The JSON object `health_check` returns. -/
structure HealthResponse where
  status : String
  redis_status : String
  backend_status : String
  metrics : Metrics
deriving DecidableEq

/-- `health_check` (src/main.py), as a function of the two probe outcomes
and the current metrics; `none` would mean an exception escaped the
handler. -/
def health_check (ping : Option (Except PyExc Unit))
    (probe : Except PyExc Unit) (m : Metrics) : Option HealthResponse :=
  match redisStatusOf ping, backendStatusOf probe with
  | some rs, some bs =>
      some { status := overallStatus rs bs
             redis_status := rs
             backend_status := bs
             metrics := m }
  | _, _ => none

/-! ## Concrete fixtures used by closed evaluations -/

/-- A backend that replies 200 with a JSON content type. -/
def sampleBackend : OutboundReq → BackendResult :=
  fun _ => .ok { status_code := 200
                 headers := [("content-type", "application/json")]
                 content := [123, 125] }

/-- A backend call that raises `httpx.ReadTimeout` (a `TimeoutException`),
e.g. a backend that delays 6 seconds against the 5-second client timeout. -/
def timeoutBackend : OutboundReq → BackendResult :=
  fun _ => .raised (.httpxTimeout "Read timed out")

/-- A backend call that raises `httpx.ConnectError` (a `RequestError` that is
not a timeout). -/
def connectErrorBackend : OutboundReq → BackendResult :=
  fun _ => .raised (.httpxRequestErrorOther "Connection refused")

/-- A backend call that fails with an exception outside the httpx taxonomy. -/
def crashBackend : OutboundReq → BackendResult :=
  fun _ => .raised (.otherException "boom")

/-- A GET request from client 1.2.3.4. -/
def getReq : Req :=
  { method := "GET", path := "/api/items", query := "", scheme := "http"
    headers := [("host", "gateway.local"), ("accept", "*/*")]
    body := [], client := some { host := "1.2.3.4" } }

/-- A request whose ASGI scope carries no client address
(`request.client is None`). -/
def reqNoClient : Req :=
  { method := "GET", path := "/x", query := "", scheme := "http"
    headers := [], body := [], client := none }

/-- Fresh process metrics. -/
def metricsZero : Metrics :=
  { total_requests_processed := 0, total_requests_blocked := 0 }

/-! ## Helper lemmas: substring search -/

theorem mem_dictPop (d : List (String × String)) (k' : String)
    (p : String × String) : p ∈ dictPop d k' ↔ p ∈ d ∧ p.1 ≠ k' := by
  simp [dictPop, List.mem_filter]

theorem dictGet_cons (q : String × String) (rest : List (String × String))
    (k : String) :
    dictGet (q :: rest) k = if q.1 = k then some q.2 else dictGet rest k := by
  by_cases hq : q.1 = k
  · simp [dictGet, List.find?, hq]
  · simp [dictGet, List.find?, hq]

theorem hasKey_cons_tail (q : String × String) (rest : List (String × String))
    (k : String) (h : hasKey (q :: rest) k = true) (hq : ¬ q.1 = k) :
    hasKey rest k = true := by
  simp only [hasKey, List.any_cons, Bool.or_eq_true, decide_eq_true_eq] at h
  rcases h with h1 | h2
  · exact absurd h1 hq
  · simpa [hasKey] using h2

theorem hasKey_cons_head (q : String × String) (rest : List (String × String))
    (k : String) (h : hasKey (q :: rest) k = false) : ¬ q.1 = k := by
  intro hq
  rw [show hasKey (q :: rest) k = true by simp [hasKey, hq]] at h
  exact absurd h (by decide)

theorem hasKey_cons_rest (q : String × String) (rest : List (String × String))
    (k : String) (h : hasKey (q :: rest) k = false) : hasKey rest k = false := by
  by_contra hr
  rw [show hasKey (q :: rest) k = true by
    simp only [hasKey, List.any_cons, Bool.or_eq_true]
    right
    simpa [hasKey] using hr] at h
  exact absurd h (by decide)

theorem dictGet_map_update_self (d : List (String × String)) (k v : String)
    (h : hasKey d k = true) :
    dictGet (d.map (fun p => if p.1 = k then (k, v) else p)) k = some v := by
  induction d with
  | nil => simp [hasKey] at h
  | cons q rest ih =>
    rw [List.map_cons, dictGet_cons]
    by_cases hq : q.1 = k
    · rw [if_pos hq]
      rw [if_pos rfl]
    · rw [if_neg hq, if_neg hq]
      exact ih (hasKey_cons_tail q rest k h hq)

theorem dictGet_append_self (d : List (String × String)) (k v : String)
    (h : hasKey d k = false) :
    dictGet (d ++ [(k, v)]) k = some v := by
  induction d with
  | nil =>
    rw [List.nil_append, dictGet_cons, if_pos rfl]
  | cons q rest ih =>
    rw [List.cons_append, dictGet_cons, if_neg (hasKey_cons_head q rest k h)]
    exact ih (hasKey_cons_rest q rest k h)

theorem dictGet_dictSet_self (d : List (String × String)) (k v : String) :
    dictGet (dictSet d k v) k = some v := by
  unfold dictSet
  by_cases h : hasKey d k = true
  · rw [if_pos h]
    exact dictGet_map_update_self d k v h
  · rw [if_neg h]
    exact dictGet_append_self d k v (Bool.eq_false_iff.mpr h)

theorem dictGet_map_update_ne (d : List (String × String)) (k' v' k : String)
    (hk : k ≠ k') :
    dictGet (d.map (fun p => if p.1 = k' then (k', v') else p)) k
      = dictGet d k := by
  induction d with
  | nil => rfl
  | cons q rest ih =>
    rw [List.map_cons, dictGet_cons, dictGet_cons]
    by_cases hq : q.1 = k'
    · rw [if_pos hq]
      have h1 : ¬ ((k', v').1 = k) := fun he => hk he.symm
      have h2 : ¬ (q.1 = k) := by rw [hq]; exact fun he => hk he.symm
      rw [if_neg h1, if_neg h2, ih]
    · rw [if_neg hq]
      by_cases hqk : q.1 = k
      · rw [if_pos hqk, if_pos hqk]
      · rw [if_neg hqk, if_neg hqk, ih]

theorem dictGet_append_ne (d : List (String × String)) (k' v' k : String)
    (hk : k ≠ k') :
    dictGet (d ++ [(k', v')]) k = dictGet d k := by
  induction d with
  | nil =>
    rw [List.nil_append, dictGet_cons, if_neg (fun he => hk he.symm)]
  | cons q rest ih =>
    rw [List.cons_append, dictGet_cons, dictGet_cons]
    by_cases hqk : q.1 = k
    · rw [if_pos hqk, if_pos hqk]
    · rw [if_neg hqk, if_neg hqk, ih]

theorem dictGet_dictSet_ne (d : List (String × String)) (k' v' k : String)
    (hk : k ≠ k') : dictGet (dictSet d k' v') k = dictGet d k := by
  unfold dictSet
  by_cases h : hasKey d k' = true
  · rw [if_pos h]
    exact dictGet_map_update_ne d k' v' k hk
  · rw [if_neg h]
    exact dictGet_append_ne d k' v' k hk

theorem mem_dictSet_cases (d : List (String × String)) (k v : String)
    (p : String × String) (hp : p ∈ dictSet d k v) : p ∈ d ∨ p = (k, v) := by
  unfold dictSet at hp
  by_cases h : hasKey d k = true
  · rw [if_pos h] at hp
    rcases List.mem_map.mp hp with ⟨q, hq, hfq⟩
    by_cases hq1 : q.1 = k
    · right
      rw [← hfq, if_pos hq1]
    · left
      rw [← hfq, if_neg hq1]
      exact hq
  · rw [if_neg h] at hp
    rcases List.mem_append.mp hp with h1 | h2
    · left
      exact h1
    · right
      simpa using h2

theorem mem_dictSet_ne (d : List (String × String)) (k' v' : String)
    (p : String × String) (hne : p.1 ≠ k') :
    p ∈ dictSet d k' v' ↔ p ∈ d := by
  unfold dictSet
  by_cases h : hasKey d k' = true
  · rw [if_pos h]
    constructor
    · intro hp
      rcases List.mem_map.mp hp with ⟨q, hq, hfq⟩
      by_cases hq1 : q.1 = k'
      · exfalso
        apply hne
        rw [← hfq, if_pos hq1]
      · rw [← hfq, if_neg hq1]
        exact hq
    · intro hp
      apply List.mem_map.mpr
      exact ⟨p, hp, if_neg hne⟩
  · rw [if_neg h, List.mem_append]
    constructor
    · rintro (h1 | h2)
      · exact h1
      · exfalso
        apply hne
        have : p = (k', v') := by simpa using h2
        rw [this]
    · exact fun hp => Or.inl hp

/-! ## Shared facts about the health handler -/

theorem health_check_isSome_aux (ping : Option (Except PyExc Unit))
    (probe : Except PyExc Unit) (m : Metrics) :
    ∃ rs bs, redisStatusOf ping = some rs ∧ backendStatusOf probe = some bs ∧
      health_check ping probe m
        = some { status := overallStatus rs bs, redis_status := rs,
                 backend_status := bs, metrics := m } := by
  have hb : ∃ bs, backendStatusOf probe = some bs := by
    rcases probe with e | u
    · rcases e with m1 | m2 | ⟨c, m3⟩ | m4 <;> exact ⟨_, rfl⟩
    · exact ⟨_, rfl⟩
  have hr : ∃ rs, redisStatusOf ping = some rs := by
    rcases ping with _ | x
    · exact ⟨_, rfl⟩
    · rcases x with e | u
      · rcases e with m1 | m2 | ⟨c, m3⟩ | m4 <;> exact ⟨_, rfl⟩
      · exact ⟨_, rfl⟩
  obtain ⟨bs, hbs⟩ := hb
  obtain ⟨rs, hrs⟩ := hr
  refine ⟨rs, bs, hrs, hbs, ?_⟩
  simp only [health_check, hrs, hbs]

/-! ## Claims -/

/-- C1: the claim says the (L+1)-th request from a client for a method with
configured limit L in one window is rejected with a 429.  The code's
`is_rate_limited` is a stub that admits unconditionally (its own log message
says the rate-limiting logic is pending Phase 2), so at the failing input —
six consecutive GET requests from one client within one window, against the
configured GET limit of 5 — all six are admitted and forwarded, none receives
the 429, and `total_requests_blocked` stays 0 while
`total_requests_processed` reaches 6. -/
theorem rate_limit_stub_admits_burst :
    RATE_LIMITS.lookup "GET" = some 5 ∧
    ((runRequests sampleBackend (List.replicate 6 getReq) metricsZero).2.all
      isForwarded) = true ∧
    ((runRequests sampleBackend (List.replicate 6 getReq) metricsZero).2.any
      is429) = false ∧
    (runRequests sampleBackend (List.replicate 6 getReq) metricsZero).1
      = { total_requests_processed := 6, total_requests_blocked := 0 } := by
  decide

/-- C2: the claim says a backend timeout is classified `BackendTimeout` and
surfaced as 504.  In httpx, `TimeoutException` subclasses `RequestError`, and
`forward_proxy` lists `except httpx.RequestError` (503) before
`except httpx.TimeoutException` (504), so a timeout is taken by the first
clause and the gateway returns 503, not 504; the 504 branch is unreachable.
Connection errors do map to 503 and other failures to 500 as claimed. -/
theorem timeout_shadowed_by_request_error_clause :
    clientTimeoutSeconds = 5 ∧
    isTimeoutException (PyExc.httpxTimeout "Read timed out") = true ∧
    isRequestError (PyExc.httpxTimeout "Read timed out") = true ∧
    (forward_proxy timeoutBackend getReq).2
      = ForwardOutcome.httpException 503 "Backend service unavailable" ∧
    (forward_proxy timeoutBackend getReq).2
      ≠ ForwardOutcome.httpException 504 "Gateway timeout" ∧
    (forward_proxy connectErrorBackend getReq).2
      = ForwardOutcome.httpException 503 "Backend service unavailable" ∧
    (forward_proxy crashBackend getReq).2
      = ForwardOutcome.httpException 500 "Internal Gateway error" := by
  decide

/-- C3: `total_requests_processed` is incremented exactly once per request
reaching the rate-limit check regardless of outcome, and
`total_requests_blocked` is incremented exactly once per rejection and never
on admission.  In this code the check admits every request, so
`total_requests_blocked` never changes (the per-rejection increment is the
`if`-term below, which is always 0 because the check never rejects), and the
gateway endpoint increments `total_requests_processed` exactly once whenever
the check is reached (the check is skipped only when reading
`request.client.host` itself fails). -/
theorem metrics_increment_discipline (ip : String) (m : Metrics)
    (backend : OutboundReq → BackendResult) (req : Req) (s : Metrics) :
    (is_rate_limited ip m).1.total_requests_processed
      = m.total_requests_processed + 1 ∧
    (is_rate_limited ip m).1.total_requests_blocked
      = m.total_requests_blocked
        + (if (is_rate_limited ip m).2 then 1 else 0) ∧
    (catch_all_proxy backend req s).1.total_requests_blocked
      = s.total_requests_blocked ∧
    (catch_all_proxy backend req s).1.total_requests_processed
      = s.total_requests_processed + (if req.client.isSome then 1 else 0) := by
  refine ⟨rfl, rfl, ?_, ?_⟩
  · cases hc : req.client with
    | none => simp [catch_all_proxy, hc]
    | some c => simp [catch_all_proxy, hc, is_rate_limited]
  · cases hc : req.client with
    | none => simp [catch_all_proxy, hc]
    | some c => simp [catch_all_proxy, hc, is_rate_limited]

/-- C4: for every admitted request (headers as normalised by Starlette, i.e.
lowercase names), the outbound backend request copies the method and body
verbatim, carries no `host` header at all (so never the gateway's own host),
has `X-Forwarded-For` set to the client identity and `X-Forwarded-Proto` to
the inbound scheme, copies every other inbound header unchanged, and
reattaches the original query string to the path. -/
theorem outbound_request_construction (req : Req)
    (hNorm : ∀ p ∈ req.headers, lowerStr p.1 = p.1) :
    (buildOutbound req).method = req.method ∧
    (buildOutbound req).content = req.body ∧
    (∀ p ∈ (buildOutbound req).headers, lowerStr p.1 ≠ "host") ∧
    dictGet (buildOutbound req).headers "X-Forwarded-For"
      = some (clientIdentity req.client) ∧
    dictGet (buildOutbound req).headers "X-Forwarded-Proto" = some req.scheme ∧
    (∀ k v : String, k ≠ "host" → k ≠ "X-Forwarded-For" →
      k ≠ "X-Forwarded-Proto" →
      ((k, v) ∈ req.headers ↔ (k, v) ∈ (buildOutbound req).headers)) ∧
    (buildOutbound req).url
      = req.path ++ (if req.query = "" then "" else "?" ++ req.query) := by
  have hH : (buildOutbound req).headers
      = dictSet (dictSet (dictPop req.headers "host") "X-Forwarded-For"
          (clientIdentity req.client)) "X-Forwarded-Proto" req.scheme := rfl
  refine ⟨rfl, rfl, ?_, ?_, ?_, ?_, rfl⟩
  · intro p hp
    rw [hH] at hp
    rcases mem_dictSet_cases _ _ _ _ hp with hp1 | hpe
    · rcases mem_dictSet_cases _ _ _ _ hp1 with hp2 | hpe2
      · rcases (mem_dictPop _ _ _).mp hp2 with ⟨hmem, hne⟩
        rw [hNorm p hmem]
        exact hne
      · rw [hpe2]
        show lowerStr "X-Forwarded-For" ≠ "host"
        decide
    · rw [hpe]
      show lowerStr "X-Forwarded-Proto" ≠ "host"
      decide
  · rw [hH, dictGet_dictSet_ne _ _ _ _ (by decide)]
    exact dictGet_dictSet_self _ _ _
  · rw [hH]
    exact dictGet_dictSet_self _ _ _
  · intro k v hk1 hk2 hk3
    rw [hH, mem_dictSet_ne _ _ _ _ hk3, mem_dictSet_ne _ _ _ _ hk2,
      mem_dictPop]
    simp [hk1]

/-- C4 witness: the construction evaluated on a concrete GET request whose
inbound headers are `host: gateway.local` and `accept: */*`. -/
theorem outbound_request_construction_witness :
    (∀ p ∈ getReq.headers, lowerStr p.1 = p.1) ∧
    ((buildOutbound getReq).method = getReq.method ∧
     (buildOutbound getReq).content = getReq.body ∧
     (∀ p ∈ (buildOutbound getReq).headers, lowerStr p.1 ≠ "host") ∧
     dictGet (buildOutbound getReq).headers "X-Forwarded-For"
       = some (clientIdentity getReq.client) ∧
     dictGet (buildOutbound getReq).headers "X-Forwarded-Proto"
       = some getReq.scheme ∧
     (∀ k v : String, k ≠ "host" → k ≠ "X-Forwarded-For" →
       k ≠ "X-Forwarded-Proto" →
       ((k, v) ∈ getReq.headers ↔ (k, v) ∈ (buildOutbound getReq).headers)) ∧
     (buildOutbound getReq).url
       = getReq.path ++ (if getReq.query = "" then "" else "?" ++ getReq.query)) :=
  ⟨by decide, outbound_request_construction getReq (by decide)⟩

/-- C5: the response the gateway builds from a successful backend call keeps
the backend's status code, headers and body unchanged, and its media type is
the backend's own `Content-Type` header when present (httpx header lookup is
case-insensitive) and the generic `application/json` when absent. -/
theorem backend_response_translation (br : BackendResponse) :
    (buildResponse br).status_code = br.status_code ∧
    (buildResponse br).headers = br.headers ∧
    (buildResponse br).content = br.content ∧
    (∀ ct : String, httpxHeaderGet br.headers "Content-Type" = some ct →
      (buildResponse br).media_type = ct) ∧
    (httpxHeaderGet br.headers "Content-Type" = none →
      (buildResponse br).media_type = "application/json") := by
  refine ⟨rfl, rfl, rfl, ?_, ?_⟩
  · intro ct hct
    simp [buildResponse, hct]
  · intro hct
    simp [buildResponse, hct]

/-- C5 witness: a backend reply carrying `Content-Type: text/html` yields a
gateway response whose media type is `text/html`. -/
theorem backend_response_translation_witness :
    httpxHeaderGet [("Content-Type", "text/html")] "Content-Type"
      = some "text/html" ∧
    (buildResponse { status_code := 200, headers := [("Content-Type", "text/html")], content := [] }).media_type = "text/html" :=
  ⟨by decide,
    (backend_response_translation { status_code := 200, headers := [("Content-Type", "text/html")], content := [] }).2.2.2.1 "text/html" (by decide)⟩

/-- C7: every `forward_proxy` run acquires exactly one slot of the semaphore
(whose capacity is the fixed `MAX_CONCURRENT_REQUESTS`) before the backend
call and releases it exactly once afterwards, on every exit path — the
successful one and each of the three exception paths alike, since the whole
body runs inside the scoped `async with semaphore:` block. -/
theorem semaphore_scoped_acquire_release (backend : OutboundReq → BackendResult)
    (req : Req) :
    semaphoreCapacity = MAX_CONCURRENT_REQUESTS ∧
    (forward_proxy backend req).1
      = [SemEvent.acquire, SemEvent.backendCall, SemEvent.release] ∧
    (forward_proxy backend req).1.count SemEvent.acquire = 1 ∧
    (forward_proxy backend req).1.count SemEvent.release = 1 := by
  have hl : (forward_proxy backend req).1
      = [SemEvent.acquire, SemEvent.backendCall, SemEvent.release] := by
    simp only [forward_proxy]
    cases hb : backend (buildOutbound req) with
    | ok br => rfl
    | raised e =>
      by_cases h1 : isRequestError e = true
      · simp [h1]
      · by_cases h2 : isTimeoutException e = true
        · simp [h1, h2]
        · simp [h1, h2]
  refine ⟨rfl, hl, ?_, ?_⟩
  · rw [hl]
    decide
  · rw [hl]
    decide

/-- C8 counterexample: the claim says the client identity falls back to the
sentinel `"unknown"` whenever the remote address is undeterminable.  But
`catch_all_proxy` reads `request.client.host` with no guard, so a request
whose ASGI scope carries no client address makes the handler raise
`AttributeError` instead of using any identity at all — the sentinel fallback
exists only inside `forward_proxy`. -/
theorem client_identity_counterexample :
    reqNoClient.client = none ∧
    catch_all_proxy sampleBackend reqNoClient metricsZero
      = (metricsZero, GatewayResult.pyError PyRuntimeError.attributeError) := by
  decide

/-- C8 amended: the `X-Forwarded-For` value that `forward_proxy` computes is
never empty — it is the sentinel `"unknown"` when `request.client` is absent
and the client's host otherwise (nonempty whenever that host is nonempty) —
but `catch_all_proxy` reads `request.client.host` without the fallback and
raises `AttributeError` when the client is absent. -/
theorem client_identity_fallback_amended (c : Client) (hc : c.host ≠ "")
    (backend : OutboundReq → BackendResult) (m : Metrics) :
    clientIdentity none = "unknown" ∧
    clientIdentity (some c) = c.host ∧
    clientIdentity (some c) ≠ "" ∧
    clientIdentity none ≠ "" ∧
    (∀ req : Req, req.client = none →
      (catch_all_proxy backend req m).2
        = GatewayResult.pyError PyRuntimeError.attributeError) ∧
    (∀ req : Req, dictGet (buildOutbound req).headers "X-Forwarded-For"
      = some (clientIdentity req.client)) := by
  refine ⟨rfl, rfl, hc, by decide, ?_, ?_⟩
  · intro req hreq
    simp [catch_all_proxy, hreq]
  · intro req
    show dictGet (dictSet (dictSet (dictPop req.headers "host")
      "X-Forwarded-For" (clientIdentity req.client)) "X-Forwarded-Proto"
      req.scheme) "X-Forwarded-For" = some (clientIdentity req.client)
    rw [dictGet_dictSet_ne _ _ _ _ (by decide)]
    exact dictGet_dictSet_self _ _ _

/-- C8 amended witness: evaluated for the client `1.2.3.4` and the concrete
GET request fixture. -/
theorem client_identity_fallback_amended_witness :
    ("1.2.3.4" : String) ≠ "" ∧
    clientIdentity none = "unknown" ∧
    dictGet (buildOutbound getReq).headers "X-Forwarded-For"
      = some (clientIdentity getReq.client) :=
  ⟨by decide,
    (client_identity_fallback_amended { host := "1.2.3.4" } (by decide)
      sampleBackend metricsZero).1,
    (client_identity_fallback_amended { host := "1.2.3.4" } (by decide)
      sampleBackend metricsZero).2.2.2.2.2 getReq⟩

/-- C9: the catch-all route admits the methods GET, POST, PUT, DELETE, PATCH,
HEAD, OPTIONS, but `RATE_LIMITS` only defines GET, POST, PUT, DELETE; the 429
detail string subscripts `RATE_LIMITS[request.method]` without a guard, so a
rate-limit rejection of a PATCH (or HEAD or OPTIONS) request would raise
`KeyError` while formatting the detail, instead of producing the specified
429 body that a GET rejection would produce. -/
theorem rate_limits_missing_methods_keyerror :
    "PATCH" ∈ routeMethods ∧ "HEAD" ∈ routeMethods ∧
    "OPTIONS" ∈ routeMethods ∧
    RATE_LIMITS.lookup "PATCH" = none ∧
    RATE_LIMITS.lookup "HEAD" = none ∧
    RATE_LIMITS.lookup "OPTIONS" = none ∧
    rejectDetail "PATCH" = Except.error (PyRuntimeError.keyError "PATCH") ∧
    rejectDetail "GET" = Except.ok
      "Too Many Requests. Limit: 5 per 60s. Please retry after 60 seconds." := by
  refine ⟨by decide, by decide, by decide, by decide, by decide, by decide,
    rfl, rfl⟩

/-- C10: the health handler is total — for every combination of probe
outcomes (redis client uninitialised, ping success, any raised exception;
backend probe success or any raised exception, all dispatched through the
ordered `except` chains) the handler returns a response carrying the four
fields, with the metrics snapshot passed through, and no exception
propagates. -/
theorem health_handler_total (ping : Option (Except PyExc Unit))
    (probe : Except PyExc Unit) (m : Metrics) :
    ∃ r : HealthResponse, health_check ping probe m = some r ∧
      r.status = overallStatus r.redis_status r.backend_status ∧
      r.metrics = m := by
  obtain ⟨rs, bs, _, _, hh⟩ := health_check_isSome_aux ping probe m
  exact ⟨_, hh, rfl, rfl⟩
